import Mathlib

/-!
# ofp_vs core: packet pipeline, scheduling entry point, start-up sequence

A shallow embedding of `src/ofp_vs/ofp_vs_core.c`.

* Every function of the C file is a pure Lean function that returns the C
  return value together with the ordered list of the calls it makes into code
  outside the file (and of the writes it performs on the connection record).
* Code that the C file calls but does not contain (protocol handlers, the
  scheduler, the connection table, statistics, transmit routines) is a field
  of an environment record: a function giving the result of the call.
* A connection record is passed by value; a callee that receives the
  non-const `cp` pointer returns the record as it leaves it, so every later
  read of a `cp->` field sees the callee's writes.
* Header constants that are not part of the C file are fields of `Consts`.
* Integers: every quantity read from a packet or a record is a `Nat`,
  every C `int` result is an `Int`. The file performs no arithmetic on them
  except `ihl * 4`, `sizeof(struct ether_hdr) + len` and one narrowing to
  `__u16`, which is written out as `% 65536`.
-/

namespace OfpVs

/-! ## Constants -/

/-- Constants of the headers `net/ip_vs.h` and `ofp_vs_kern_compat.h`, which
are not among the sources; each is a parameter of the development. -/
structure Consts where
  NF_ACCEPT : Int
  NF_DROP : Int
  IP_VS_CIDX_F_IN2OUT : Int
  IP_VS_DIR_INPUT : Int
  IP_VS_DIR_OUTPUT : Int
  IP_VS_CONN_F_FULLNAT : Nat
  IP_VS_CONN_F_ONE_PACKET : Nat
  IP_VS_DEST_F_AVAILABLE : Nat
  IP_VS_SVC_F_ONEPACKET : Nat
  FTPPORT : Nat

/-- IANA protocol number of ICMP (`netinet/in.h`). -/
def IPPROTO_ICMP : Nat := 1

/-- IANA protocol number of TCP (`netinet/in.h`). -/
def IPPROTO_TCP : Nat := 6

/-- IANA protocol number of UDP (`netinet/in.h`). -/
def IPPROTO_UDP : Nat := 17

/-- The value of `sizeof(struct ether_hdr)`: two 6-byte addresses and a
2-byte type. -/
def sizeof_ether_hdr : Nat := 14

/-! ## Data model -/

/-- The IPv4 header fields the file reads. `tot_len` is the value after
`rte_be_to_cpu_16`. -/
structure iphdr where
  ihl : Nat
  tot_len : Nat
  protocol : Nat
  saddr : Nat
  daddr : Nat

/-- The packet buffer. `is_ipv4` is `RTE_ETH_IS_IPV4_HDR(skb->packet_type)`,
`data_len` is `skb->data_len`, `hdr` is the header found at offset
`sizeof(struct ether_hdr)`, and `ports_at off` is the result of
`rte_pktmbuf_mtod_offset(skb, __be16 *, off)`: `none` for a null pointer,
otherwise the two 16-bit words `(pptr[0], pptr[1])` found there. -/
structure rte_mbuf where
  is_ipv4 : Bool
  data_len : Nat
  hdr : iphdr
  ports_at : Nat → Option (Nat × Nat)

/-- The header summary filled by `ip_vs_fill_iphdr`. -/
structure ip_vs_iphdr where
  len : Nat
  protocol : Nat
  saddr : Nat
  daddr : Nat
  deriving DecidableEq, Repr

/-- A backend server: the fields the file reads. -/
structure ip_vs_dest where
  addr : Nat
  port : Nat
  flags : Nat
  deriving DecidableEq, Repr

/-- A connection record: the flow tuple and the fields the file reads.
`packet_xmit` is the transmit function pointer, `none` when null, otherwise
an identifier of the routine (run by `Env.packet_xmit`). -/
structure ip_vs_conn where
  protocol : Nat
  caddr : Nat
  cport : Nat
  vaddr : Nat
  vport : Nat
  daddr : Nat
  dport : Nat
  flags : Nat
  dest : Option ip_vs_dest
  packet_xmit : Option Nat
  state : Nat
  old_state : Nat
  deriving DecidableEq, Repr

/-- A virtual service: the fields the file reads. The scheduler reached
through `svc->scheduler` is `SchedEnv.schedule`. -/
structure ip_vs_service where
  af : Nat
  port : Nat
  fwmark : Nat
  flags : Nat
  deriving DecidableEq, Repr

/-- What `conn_in_get` hands back: the returned pointer and the direction it
stores through `&res_dir`. -/
structure conn_lookup where
  cp : Option ip_vs_conn
  res_dir : Int

/-- What `conn_schedule` hands back: its return value, the verdict it stores
through `&v` and the connection it stores through `&cp`. -/
structure conn_sched_result where
  ret : Int
  v : Int
  cp : Option ip_vs_conn

/-- A registered protocol handler (`struct ip_vs_protocol`): the three
function pointers the file uses; `state_transition` may be null. -/
structure ip_vs_protocol where
  conn_in_get : rte_mbuf → ip_vs_iphdr → conn_lookup
  conn_schedule : rte_mbuf → conn_sched_result
  state_transition : Option (ip_vs_conn → Int → rte_mbuf → Int × ip_vs_conn)

/-- The code `ofp_vs_in` calls outside the file, and the tunable it reads. -/
structure Env where
  ip_vs_proto_get : Nat → Option ip_vs_protocol
  ip_vs_out_stats : ip_vs_conn → rte_mbuf → ip_vs_conn
  ip_vs_in_stats : ip_vs_conn → rte_mbuf → ip_vs_conn
  ip_vs_fnat_response_xmit : rte_mbuf → ip_vs_conn → Nat → Int
  packet_xmit : Nat → rte_mbuf → ip_vs_conn → Int
  sysctl_ip_vs_expire_nodest_conn : Int

/-- One observable step of `ofp_vs_in`: a call that leaves the file, or a
write to the connection record. -/
inductive Event where
  /-- The call `pp->conn_in_get(...)`: the connection-table lookup. -/
  | conn_in_get
  /-- The call `pp->conn_schedule(...)`. -/
  | conn_schedule
  /-- The call `ip_vs_out_stats(cp, skb)`. -/
  | ip_vs_out_stats
  /-- The call `pp->state_transition(cp, direction, skb, pp)`. -/
  | state_transition (direction : Int)
  /-- The call `ip_vs_fnat_response_xmit(skb, pp, cp, ihl)`. -/
  | ip_vs_fnat_response_xmit
  /-- The call `ip_vs_conn_put(cp)`: gives the reference back and restarts
  the connection's timer. -/
  | ip_vs_conn_put
  /-- The call `ip_vs_conn_expire_now(cp)`. -/
  | ip_vs_conn_expire_now
  /-- The call `__ip_vs_conn_put(cp)`: gives the reference back and leaves
  the timer alone. -/
  | __ip_vs_conn_put
  /-- The call `ip_vs_in_stats(cp, skb)`. -/
  | ip_vs_in_stats
  /-- The call `cp->packet_xmit(skb, cp, pp)`. -/
  | packet_xmit
  /-- The write `atomic_add_return(1, &cp->in_pkts)`. -/
  | in_pkts_inc
  /-- The write `cp->old_state = cp->state`. -/
  | old_state_set
  deriving DecidableEq, Repr

/-! ## Helpers from headers -/

/-- Modelled from the spec: `ip_hdrlen` (header `ofp_vs_tcpip.h`, not among
the sources) is the "header length" that the classifier compares with the
declared total length: the 4-bit `ihl` field counted in 32-bit words. -/
def ip_hdrlen (h : iphdr) : Nat := h.ihl * 4

/-- Modelled from the spec: `ip_vs_fill_iphdr` (header `net/ip_vs.h`, not
among the sources) extracts from the IPv4 header the header length, the
protocol and the two addresses of the flow tuple. -/
def ip_vs_fill_iphdr (h : iphdr) : ip_vs_iphdr :=
  { len := h.ihl * 4, protocol := h.protocol, saddr := h.saddr, daddr := h.daddr }

/-! ## Functions of `ofp_vs_core.c` -/

/-- Function `ip_vs_set_state`: 0 when the handler has no `state_transition`,
otherwise the handler's result. Returns the `int`, the connection record as
the handler leaves it, and the calls made. -/
def ip_vs_set_state (cp : ip_vs_conn) (direction : Int) (skb : rte_mbuf)
    (pp : ip_vs_protocol) : Int × ip_vs_conn × List Event :=
  match pp.state_transition with
  | none => (0, cp, [])
  | some f => ((f cp direction skb).1, (f cp direction skb).2, [Event.state_transition direction])

/-- Function `ip_vs_in_icmp`: stores 0 through `related` and returns `NF_ACCEPT`.
The pair is (return value, `*related`). -/
def ip_vs_in_icmp (K : Consts) (_skb : rte_mbuf) : Int × Int :=
  (K.NF_ACCEPT, 0)

/-- Function `handle_response`: statistics, state transition in the output direction,
full-NAT transmit when the connection has the full-NAT flag, then
`ip_vs_conn_put`. -/
def handle_response (K : Consts) (env : Env) (skb : rte_mbuf) (pp : ip_vs_protocol)
    (cp : ip_vs_conn) (ihl : Nat) : Int × List Event :=
  let cp1 := env.ip_vs_out_stats cp skb
  let st := ip_vs_set_state cp1 K.IP_VS_DIR_OUTPUT skb pp
  let cp2 := st.2.1
  if cp2.flags &&& K.IP_VS_CONN_F_FULLNAT ≠ 0 then
    (env.ip_vs_fnat_response_xmit skb cp2 ihl,
      [Event.ip_vs_out_stats] ++ st.2.2 ++ [Event.ip_vs_fnat_response_xmit, Event.ip_vs_conn_put])
  else
    (K.NF_DROP, [Event.ip_vs_out_stats] ++ st.2.2 ++ [Event.ip_vs_conn_put])

/-- The test `cp->dest && !(cp->dest->flags & IP_VS_DEST_F_AVAILABLE)`. -/
def dest_unavailable (K : Consts) (cp : ip_vs_conn) : Bool :=
  match cp.dest with
  | none => false
  | some d => d.flags &&& K.IP_VS_DEST_F_AVAILABLE == 0

/-- Lines 310-389 of `ofp_vs_in`: what happens once a connection is held in
the forward direction. -/
def ofp_vs_in_forward (K : Consts) (env : Env) (skb : rte_mbuf) (pp : ip_vs_protocol)
    (cp : ip_vs_conn) : Int × List Event :=
  if dest_unavailable K cp then
    (K.NF_DROP,
      (if env.sysctl_ip_vs_expire_nodest_conn ≠ 0 then [Event.ip_vs_conn_expire_now] else [])
        ++ [Event.__ip_vs_conn_put])
  else
    let cp1 := env.ip_vs_in_stats cp skb
    let st := ip_vs_set_state cp1 K.IP_VS_DIR_INPUT skb pp
    let cp2 := st.2.1
    match cp2.packet_xmit with
    | some f =>
      (env.packet_xmit f skb cp2,
        [Event.ip_vs_in_stats] ++ st.2.2
          ++ [Event.packet_xmit, Event.in_pkts_inc, Event.old_state_set, Event.ip_vs_conn_put])
    | none =>
      (K.NF_ACCEPT,
        [Event.ip_vs_in_stats] ++ st.2.2
          ++ [Event.in_pkts_inc, Event.old_state_set, Event.ip_vs_conn_put])

/-- Lines 280-389 of `ofp_vs_in`: protocol dispatch, lookup, scheduling on a
miss. -/
def ofp_vs_in_dispatch (K : Consts) (env : Env) (skb : rte_mbuf) (iph : ip_vs_iphdr) :
    Int × List Event :=
  match env.ip_vs_proto_get iph.protocol with
  | none => (K.NF_ACCEPT, [])
  | some pp =>
    let r := pp.conn_in_get skb iph
    match r.cp with
    | some cp =>
      if r.res_dir = K.IP_VS_CIDX_F_IN2OUT then
        ((handle_response K env skb pp cp iph.len).1,
          Event.conn_in_get :: (handle_response K env skb pp cp iph.len).2)
      else
        ((ofp_vs_in_forward K env skb pp cp).1,
          Event.conn_in_get :: (ofp_vs_in_forward K env skb pp cp).2)
    | none =>
      let s := pp.conn_schedule skb
      if s.ret = 0 then
        (s.v, [Event.conn_in_get, Event.conn_schedule])
      else
        match s.cp with
        | none => (K.NF_ACCEPT, [Event.conn_in_get, Event.conn_schedule])
        | some cp =>
          ((ofp_vs_in_forward K env skb pp cp).1,
            [Event.conn_in_get, Event.conn_schedule] ++ (ofp_vs_in_forward K env skb pp cp).2)

/-- Function `ofp_vs_in`: the verdict and the ordered list of steps taken. -/
def ofp_vs_in (K : Consts) (env : Env) (skb : rte_mbuf) : Int × List Event :=
  if skb.is_ipv4 = false then
    (K.NF_ACCEPT, [])
  else if skb.hdr.tot_len > skb.data_len ∨ skb.hdr.tot_len < ip_hdrlen skb.hdr then
    (K.NF_DROP, [])
  else
    let iph := ip_vs_fill_iphdr skb.hdr
    if iph.protocol = IPPROTO_ICMP then
      let icmp := ip_vs_in_icmp K skb
      if icmp.2 ≠ 0 then
        (icmp.1, [])
      else
        ofp_vs_in_dispatch K env skb (ip_vs_fill_iphdr skb.hdr)
    else
      ofp_vs_in_dispatch K env skb iph

/-! ## Scheduling entry point -/

/-- The arguments of one `ip_vs_conn_new` call, in source order (the packet
buffer, also an argument, is passed beside the record). -/
structure conn_new_args where
  af : Nat
  protocol : Nat
  caddr : Nat
  cport : Nat
  vaddr : Nat
  vport : Nat
  daddr : Nat
  dport : Nat
  flags : Nat
  dest : ip_vs_dest
  is_synproxy_on : Int
  deriving DecidableEq, Repr

/-- The code `ip_vs_schedule` calls outside the file: the scheduler of the
service (`svc->scheduler->schedule`) and the connection table's constructor. -/
structure SchedEnv where
  schedule : ip_vs_service → rte_mbuf → Option ip_vs_dest
  ip_vs_conn_new : conn_new_args → rte_mbuf → Option ip_vs_conn

/-- One observable step of `ip_vs_schedule`. -/
inductive SchedEvent where
  | schedule
  | ip_vs_conn_new (args : conn_new_args)
  | ip_vs_conn_stats
  deriving DecidableEq, Repr

/-- Function `ip_vs_onepacket_enabled`: the one-packet connection flag when
the service has the one-packet flag and the protocol is UDP, else 0; the
result type is `__u16`. -/
def ip_vs_onepacket_enabled (K : Consts) (svc : ip_vs_service) (iph : ip_vs_iphdr) : Nat :=
  (if svc.flags &&& K.IP_VS_SVC_F_ONEPACKET ≠ 0 ∧ iph.protocol = IPPROTO_UDP
    then K.IP_VS_CONN_F_ONE_PACKET else 0) % 65536

/-- Function `ip_vs_schedule`: the connection returned (`none` for null) and
the calls made (log output, `pr_err` and `IP_VS_DBG`, is left out). -/
def ip_vs_schedule (K : Consts) (senv : SchedEnv) (svc : ip_vs_service) (skb : rte_mbuf)
    (is_synproxy_on : Int) : Option ip_vs_conn × List SchedEvent :=
  let iph := ip_vs_fill_iphdr skb.hdr
  match skb.ports_at (sizeof_ether_hdr + iph.len) with
  | none => (none, [])
  | some pptr =>
    if svc.fwmark = 0 ∧ pptr.2 ≠ svc.port then
      (none, [])
    else
      match senv.schedule svc skb with
      | none => (none, [SchedEvent.schedule])
      | some dest =>
        let args : conn_new_args :=
          { af := svc.af, protocol := iph.protocol,
            caddr := iph.saddr, cport := pptr.1,
            vaddr := iph.daddr, vport := pptr.2,
            daddr := dest.addr, dport := if dest.port ≠ 0 then dest.port else pptr.2,
            flags := ip_vs_onepacket_enabled K svc iph,
            dest := dest, is_synproxy_on := is_synproxy_on }
        match senv.ip_vs_conn_new args skb with
        | none => (none, [SchedEvent.schedule, SchedEvent.ip_vs_conn_new args])
        | some cp =>
          (some cp, [SchedEvent.schedule, SchedEvent.ip_vs_conn_new args,
            SchedEvent.ip_vs_conn_stats])

/-- One observable step of `ip_vs_leave`. -/
inductive LeaveEvent where
  | ip_vs_service_put
  | inc_estats_conn_sched_unreach
  deriving DecidableEq, Repr

/-- Function `ip_vs_leave` (built without `CONFIG_IP_VS_IPV6`): the verdict
and the calls made. -/
def ip_vs_leave (K : Consts) (svc : ip_vs_service) (skb : rte_mbuf) : Int × List LeaveEvent :=
  let iph := ip_vs_fill_iphdr skb.hdr
  match skb.ports_at (sizeof_ether_hdr + iph.len) with
  | none => (K.NF_DROP, [LeaveEvent.ip_vs_service_put])
  | some pptr =>
    if svc.port = K.FTPPORT ∧ pptr.2 ≠ K.FTPPORT then
      (K.NF_ACCEPT, [LeaveEvent.ip_vs_service_put])
    else
      (K.NF_DROP, [LeaveEvent.ip_vs_service_put, LeaveEvent.inc_estats_conn_sched_unreach])

/-! ## Start-up sequence -/

/-- The four steps `ofp_vs_init` runs. -/
inductive InitStep where
  | ofp_vs_ctl_init
  | ip_vs_protocol_init
  | ip_vs_conn_init
  | ip_vs_rr_init
  deriving DecidableEq, Repr

/-- The return value each step gives when it is run. -/
structure InitEnv where
  ofp_vs_ctl_init : Int
  ip_vs_protocol_init : Int
  ip_vs_conn_init : Int
  ip_vs_rr_init : Int

/-- Function `ofp_vs_init`: the return value and the steps run, in order.
The second test is `(ret = ip_vs_protocol_init() < 0)`: `ret` receives the
value of the comparison, 1 or 0. -/
def ofp_vs_init (e : InitEnv) : Int × List InitStep :=
  let ret := e.ofp_vs_ctl_init
  if ret < 0 then (ret, [InitStep.ofp_vs_ctl_init])
  else
    let ret : Int := if e.ip_vs_protocol_init < 0 then 1 else 0
    if ret ≠ 0 then (ret, [InitStep.ofp_vs_ctl_init, InitStep.ip_vs_protocol_init])
    else
      let ret := e.ip_vs_conn_init
      if ret < 0 then
        (ret, [InitStep.ofp_vs_ctl_init, InitStep.ip_vs_protocol_init, InitStep.ip_vs_conn_init])
      else
        let ret := e.ip_vs_rr_init
        (ret, [InitStep.ofp_vs_ctl_init, InitStep.ip_vs_protocol_init,
          InitStep.ip_vs_conn_init, InitStep.ip_vs_rr_init])

/-! ## Predicates and concrete instances used in the statements -/

/-- The two verdict codes. -/
def is_verdict (K : Consts) (v : Int) : Prop := v = K.NF_ACCEPT ∨ v = K.NF_DROP

/-- The packet passes the checks of lines 257-267: it is classified as IPv4
and its declared total length is neither larger than the buffer nor smaller
than its header length. -/
def well_formed (skb : rte_mbuf) : Prop :=
  skb.is_ipv4 = true ∧
    ¬ (skb.hdr.tot_len > skb.data_len ∨ skb.hdr.tot_len < ip_hdrlen skb.hdr)

/-- The lookup of handler `pp` hits `cp` in the reverse (response)
direction. -/
def reverse_hit (K : Consts) (pp : ip_vs_protocol) (skb : rte_mbuf) (cp : ip_vs_conn) : Prop :=
  (pp.conn_in_get skb (ip_vs_fill_iphdr skb.hdr)).cp = some cp ∧
    (pp.conn_in_get skb (ip_vs_fill_iphdr skb.hdr)).res_dir = K.IP_VS_CIDX_F_IN2OUT

instance (K : Consts) (pp : ip_vs_protocol) (skb : rte_mbuf) (cp : ip_vs_conn) :
    Decidable (reverse_hit K pp skb cp) := by
  unfold reverse_hit
  infer_instance

/-- The lookup of handler `pp` hits `cp` in the forward direction. -/
def forward_hit (K : Consts) (pp : ip_vs_protocol) (skb : rte_mbuf) (cp : ip_vs_conn) : Prop :=
  (pp.conn_in_get skb (ip_vs_fill_iphdr skb.hdr)).cp = some cp ∧
    (pp.conn_in_get skb (ip_vs_fill_iphdr skb.hdr)).res_dir ≠ K.IP_VS_CIDX_F_IN2OUT

/-- The lookup of handler `pp` misses and its `conn_schedule` creates `cp`
and lets processing continue (non-zero return value). -/
def scheduled_conn (pp : ip_vs_protocol) (skb : rte_mbuf) (cp : ip_vs_conn) : Prop :=
  (pp.conn_in_get skb (ip_vs_fill_iphdr skb.hdr)).cp = none ∧
    (pp.conn_schedule skb).ret ≠ 0 ∧ (pp.conn_schedule skb).cp = some cp

/-- The connection record as `handle_response` sees it when it tests the
full-NAT flag: after `ip_vs_out_stats` and the output state transition. -/
def conn_at_response_xmit (K : Consts) (env : Env) (skb : rte_mbuf) (pp : ip_vs_protocol)
    (cp : ip_vs_conn) : ip_vs_conn :=
  (ip_vs_set_state (env.ip_vs_out_stats cp skb) K.IP_VS_DIR_OUTPUT skb pp).2.1

/-- The connection record as `ofp_vs_in` sees it when it tests
`cp->packet_xmit`: after `ip_vs_in_stats` and the input state transition. -/
def conn_at_forward_xmit (K : Consts) (env : Env) (skb : rte_mbuf) (pp : ip_vs_protocol)
    (cp : ip_vs_conn) : ip_vs_conn :=
  (ip_vs_set_state (env.ip_vs_in_stats cp skb) K.IP_VS_DIR_INPUT skb pp).2.1

/-- The steps that give the reference back: `ip_vs_conn_put` and
`__ip_vs_conn_put`. -/
def is_release : Event → Bool
  | Event.ip_vs_conn_put => true
  | Event.__ip_vs_conn_put => true
  | _ => false

/-- An IPv4 address written as four octets. -/
def ipv4 (a b c d : Nat) : Nat := ((a * 256 + b) * 256 + c) * 256 + d

/-- A concrete choice of the header constants for the worked instances.
Ports are written in host order: the file only compares port words with each
other and with zero, so the byte order plays no role. -/
def sample_consts : Consts :=
  { NF_ACCEPT := 1, NF_DROP := 0,
    IP_VS_CIDX_F_IN2OUT := 2, IP_VS_DIR_INPUT := 0, IP_VS_DIR_OUTPUT := 1,
    IP_VS_CONN_F_FULLNAT := 5, IP_VS_CONN_F_ONE_PACKET := 8192,
    IP_VS_DEST_F_AVAILABLE := 1, IP_VS_SVC_F_ONEPACKET := 4, FTPPORT := 21 }

/-- A 60-byte IPv4 packet of protocol `proto` from 192.168.1.5:4000 to
10.0.0.1:80 in a 74-byte buffer. -/
def sample_skb (proto : Nat) : rte_mbuf :=
  { is_ipv4 := true, data_len := 74,
    hdr := { ihl := 5, tot_len := 60, protocol := proto,
             saddr := ipv4 192 168 1 5, daddr := ipv4 10 0 0 1 },
    ports_at := fun _ => some (4000, 80) }

/-- The same packet declaring 1500 bytes of total length in its 74-byte
buffer. -/
def oversized_skb : rte_mbuf :=
  { sample_skb IPPROTO_TCP with
    hdr := { ihl := 5, tot_len := 1500, protocol := IPPROTO_TCP,
             saddr := ipv4 192 168 1 5, daddr := ipv4 10 0 0 1 } }

/-- A backend 10.0.0.11:8080 with flags `flags`. -/
def sample_dest (flags : Nat) : ip_vs_dest :=
  { addr := ipv4 10 0 0 11, port := 8080, flags := flags }

/-- The connection (TCP, 192.168.1.5:4000, 10.0.0.1:80, 10.0.0.11:8080) with
the given connection flags, backend flags and transmit routine. -/
def sample_conn (flags dflags : Nat) (xmit : Option Nat) : ip_vs_conn :=
  { protocol := IPPROTO_TCP, caddr := ipv4 192 168 1 5, cport := 4000,
    vaddr := ipv4 10 0 0 1, vport := 80, daddr := ipv4 10 0 0 11, dport := 8080,
    flags := flags, dest := some (sample_dest dflags), packet_xmit := xmit,
    state := 0, old_state := 0 }

/-- A handler without state machine whose lookup and scheduling give fixed
answers. -/
def sample_handler (look : conn_lookup) (sched : conn_sched_result) : ip_vs_protocol :=
  { conn_in_get := fun _ _ => look, conn_schedule := fun _ => sched,
    state_transition := none }

/-- An environment in which `handler` is registered for protocol `proto`
and for no other protocol; statistics leave the record unchanged, both
transmit routines answer `NF_ACCEPT` of `sample_consts`. -/
def sample_env (proto : Nat) (handler : ip_vs_protocol) (expire_nodest : Int) : Env :=
  { ip_vs_proto_get := fun p => if p = proto then some handler else none,
    ip_vs_out_stats := fun c _ => c,
    ip_vs_in_stats := fun c _ => c,
    ip_vs_fnat_response_xmit := fun _ _ _ => 1,
    packet_xmit := fun _ _ _ => 1,
    sysctl_ip_vs_expire_nodest_conn := expire_nodest }

/-- The two port words of the packet as `ip_vs_schedule` and `ip_vs_leave`
read them: at offset `sizeof(struct ether_hdr) + iph.len`; the first is the
source port, the second the destination port. -/
def l4_ports (skb : rte_mbuf) : Option (Nat × Nat) :=
  skb.ports_at (sizeof_ether_hdr + (ip_vs_fill_iphdr skb.hdr).len)

/-- The creation request as the specification words it: keyed by the
packet's protocol, client = packet source address and port, virtual = packet
destination address and port, backend = the chosen destination's address with
its port, or with the packet's destination port when its port is zero; the
one-packet connection flag exactly when the service has the one-packet flag
and the protocol is UDP. -/
def claimed_conn_request (K : Consts) (svc : ip_vs_service) (skb : rte_mbuf)
    (sport dport : Nat) (D : ip_vs_dest) (is_synproxy_on : Int) : conn_new_args :=
  { af := svc.af, protocol := skb.hdr.protocol,
    caddr := skb.hdr.saddr, cport := sport,
    vaddr := skb.hdr.daddr, vport := dport,
    daddr := D.addr, dport := if D.port = 0 then dport else D.port,
    flags := if svc.flags &&& K.IP_VS_SVC_F_ONEPACKET ≠ 0 ∧ skb.hdr.protocol = IPPROTO_UDP
      then K.IP_VS_CONN_F_ONE_PACKET % 65536 else 0,
    dest := D, is_synproxy_on := is_synproxy_on }

/-- The service 10.0.0.1:80 (no firewall mark) with service flags `flags`. -/
def sample_svc (flags : Nat) : ip_vs_service :=
  { af := 2, port := 80, fwmark := 0, flags := flags }

/-- A scheduling environment whose scheduler answers `pick` and whose
connection constructor builds the record from its arguments. -/
def sample_senv (pick : Option ip_vs_dest) : SchedEnv :=
  { schedule := fun _ _ => pick,
    ip_vs_conn_new := fun a _ =>
      some { protocol := a.protocol, caddr := a.caddr, cport := a.cport,
             vaddr := a.vaddr, vport := a.vport, daddr := a.daddr, dport := a.dport,
             flags := a.flags, dest := some a.dest, packet_xmit := none,
             state := 0, old_state := 0 } }

/-- A packet like `sample_skb` whose port words are `ports`. -/
def skb_with_ports (proto : Nat) (ports : Option (Nat × Nat)) : rte_mbuf :=
  { sample_skb proto with ports_at := fun _ => ports }

/-! ## Shared lemmas -/

/-- A well-formed packet reaches protocol dispatch with the header summary
of its IPv4 header, whatever its protocol. -/
theorem ofp_vs_in_eq_dispatch (K : Consts) (env : Env) (skb : rte_mbuf)
    (hwf : well_formed skb) :
    ofp_vs_in K env skb = ofp_vs_in_dispatch K env skb (ip_vs_fill_iphdr skb.hdr) := by
  obtain ⟨hv4, hlen⟩ := hwf
  unfold ofp_vs_in
  simp only [hv4, Bool.true_eq_false, if_false, hlen, ip_vs_in_icmp, ne_eq, not_true_eq_false,
    ite_self]

/-- Dispatch on a reverse-direction hit is `handle_response` after the
lookup. -/
theorem dispatch_reverse_hit (K : Consts) (env : Env) (skb : rte_mbuf) (pp : ip_vs_protocol)
    (cp : ip_vs_conn)
    (hpp : env.ip_vs_proto_get skb.hdr.protocol = some pp)
    (hcp : reverse_hit K pp skb cp) :
    ofp_vs_in_dispatch K env skb (ip_vs_fill_iphdr skb.hdr)
      = ((handle_response K env skb pp cp (ip_vs_fill_iphdr skb.hdr).len).1,
          Event.conn_in_get
            :: (handle_response K env skb pp cp (ip_vs_fill_iphdr skb.hdr).len).2) := by
  obtain ⟨h1, h2⟩ := hcp
  have hpp2 : env.ip_vs_proto_get (ip_vs_fill_iphdr skb.hdr).protocol = some pp := hpp
  unfold ofp_vs_in_dispatch
  simp only [hpp2, h1, h2, if_true]

/-- Dispatch on a forward-direction hit is the forward tail after the
lookup. -/
theorem dispatch_forward_hit (K : Consts) (env : Env) (skb : rte_mbuf) (pp : ip_vs_protocol)
    (cp : ip_vs_conn)
    (hpp : env.ip_vs_proto_get skb.hdr.protocol = some pp)
    (hcp : forward_hit K pp skb cp) :
    ofp_vs_in_dispatch K env skb (ip_vs_fill_iphdr skb.hdr)
      = ((ofp_vs_in_forward K env skb pp cp).1,
          Event.conn_in_get :: (ofp_vs_in_forward K env skb pp cp).2) := by
  obtain ⟨h1, h2⟩ := hcp
  have hpp2 : env.ip_vs_proto_get (ip_vs_fill_iphdr skb.hdr).protocol = some pp := hpp
  unfold ofp_vs_in_dispatch
  simp only [hpp2, h1, h2, if_false]

/-- Dispatch on a miss followed by a successful creation is the forward tail
after lookup and scheduling. -/
theorem dispatch_scheduled (K : Consts) (env : Env) (skb : rte_mbuf) (pp : ip_vs_protocol)
    (cp : ip_vs_conn)
    (hpp : env.ip_vs_proto_get skb.hdr.protocol = some pp)
    (hcp : scheduled_conn pp skb cp) :
    ofp_vs_in_dispatch K env skb (ip_vs_fill_iphdr skb.hdr)
      = ((ofp_vs_in_forward K env skb pp cp).1,
          [Event.conn_in_get, Event.conn_schedule] ++ (ofp_vs_in_forward K env skb pp cp).2) := by
  obtain ⟨h1, h2, h3⟩ := hcp
  have hpp2 : env.ip_vs_proto_get (ip_vs_fill_iphdr skb.hdr).protocol = some pp := hpp
  unfold ofp_vs_in_dispatch
  simp only [hpp2, h1, h2, h3, if_false]

/-- The forward tail on a connection whose destination is unavailable. -/
theorem forward_unavailable (K : Consts) (env : Env) (skb : rte_mbuf) (pp : ip_vs_protocol)
    (cp : ip_vs_conn) (hun : dest_unavailable K cp = true) :
    ofp_vs_in_forward K env skb pp cp
      = (K.NF_DROP,
          (if env.sysctl_ip_vs_expire_nodest_conn ≠ 0 then [Event.ip_vs_conn_expire_now] else [])
            ++ [Event.__ip_vs_conn_put]) := by
  unfold ofp_vs_in_forward
  simp only [hun, if_true]

/-- The forward tail releases once, as its last step. -/
theorem forward_release (K : Consts) (env : Env) (skb : rte_mbuf) (pp : ip_vs_protocol)
    (cp : ip_vs_conn) :
    (ofp_vs_in_forward K env skb pp cp).2.countP is_release = 1 ∧
      (ofp_vs_in_forward K env skb pp cp).2.getLast?
        = some (if dest_unavailable K cp then Event.__ip_vs_conn_put
                else Event.ip_vs_conn_put) := by
  unfold ofp_vs_in_forward
  by_cases hun : dest_unavailable K cp = true
  · simp only [hun, if_true]
    by_cases hs : env.sysctl_ip_vs_expire_nodest_conn = 0 <;> simp [hs, is_release]
  · simp only [hun]
    unfold ip_vs_set_state
    cases pp.state_transition with
    | none =>
      cases (env.ip_vs_in_stats cp skb).packet_xmit <;> simp [is_release]
    | some f =>
      cases (f (env.ip_vs_in_stats cp skb) K.IP_VS_DIR_INPUT skb).2.packet_xmit <;>
        simp [is_release]

/-- The response path releases once, as its last step. -/
theorem response_release (K : Consts) (env : Env) (skb : rte_mbuf) (pp : ip_vs_protocol)
    (cp : ip_vs_conn) (ihl : Nat) :
    (handle_response K env skb pp cp ihl).2.countP is_release = 1 ∧
      (handle_response K env skb pp cp ihl).2.getLast? = some Event.ip_vs_conn_put := by
  unfold handle_response ip_vs_set_state
  cases pp.state_transition with
  | none =>
    by_cases hf : (env.ip_vs_out_stats cp skb).flags &&& K.IP_VS_CONN_F_FULLNAT = 0 <;>
      simp [hf, is_release]
  | some f =>
    by_cases hf : (f (env.ip_vs_out_stats cp skb) K.IP_VS_DIR_OUTPUT skb).2.flags
        &&& K.IP_VS_CONN_F_FULLNAT = 0 <;>
      simp [hf, is_release]

/-- The response path yields a verdict code when the full-NAT transmit
does. -/
theorem response_verdict (K : Consts) (env : Env) (skb : rte_mbuf) (pp : ip_vs_protocol)
    (cp : ip_vs_conn) (ihl : Nat)
    (hx : ∀ s c n, is_verdict K (env.ip_vs_fnat_response_xmit s c n)) :
    is_verdict K (handle_response K env skb pp cp ihl).1 := by
  unfold handle_response
  dsimp only
  split
  · exact hx _ _ _
  · exact Or.inr rfl

/-- The forward tail yields a verdict code when the transmit routine
does. -/
theorem forward_verdict (K : Consts) (env : Env) (skb : rte_mbuf) (pp : ip_vs_protocol)
    (cp : ip_vs_conn)
    (hp : ∀ f s c, is_verdict K (env.packet_xmit f s c)) :
    is_verdict K (ofp_vs_in_forward K env skb pp cp).1 := by
  unfold ofp_vs_in_forward
  split
  · exact Or.inr rfl
  · dsimp only
    split
    · exact hp _ _ _
    · exact Or.inl rfl

/-- Protocol dispatch yields a verdict code when the three delegated
results do. -/
theorem dispatch_verdict (K : Consts) (env : Env) (skb : rte_mbuf) (iph : ip_vs_iphdr)
    (hx : ∀ s c n, is_verdict K (env.ip_vs_fnat_response_xmit s c n))
    (hp : ∀ f s c, is_verdict K (env.packet_xmit f s c))
    (hs : ∀ p h s, env.ip_vs_proto_get p = some h → (h.conn_schedule s).ret = 0 →
      is_verdict K (h.conn_schedule s).v) :
    is_verdict K (ofp_vs_in_dispatch K env skb iph).1 := by
  unfold ofp_vs_in_dispatch
  split
  · exact Or.inl rfl
  · rename_i pp hpp
    dsimp only
    split
    · split
      · exact response_verdict K env skb pp _ _ hx
      · exact forward_verdict K env skb pp _ hp
    · split
      · rename_i hret
        exact hs _ pp skb hpp hret
      · split
        · exact Or.inl rfl
        · exact forward_verdict K env skb pp _ hp

/-! ## Claims -/

/-- C1: for every packet classified as IPv4 whose header declares a total
length greater than the buffer's data length, or smaller than its own header
length, `ofp_vs_in` returns `NF_DROP` and takes no step at all: no handler
lookup, no scheduling, no state transition, no counter update, no
reference-count change. -/
theorem ofp_vs_in_malformed_drop (K : Consts) (env : Env) (skb : rte_mbuf)
    (hv4 : skb.is_ipv4 = true)
    (hbad : skb.hdr.tot_len > skb.data_len ∨ skb.hdr.tot_len < ip_hdrlen skb.hdr) :
    ofp_vs_in K env skb = (K.NF_DROP, []) := by
  unfold ofp_vs_in
  simp only [hv4, Bool.true_eq_false, if_false, hbad, if_true]

/-- Instance of C1: 1500 declared bytes in a 74-byte buffer. -/
theorem ofp_vs_in_malformed_drop_witness :
    ofp_vs_in sample_consts
        (sample_env IPPROTO_TCP
          (sample_handler ⟨some (sample_conn 0 1 (some 0)), 0⟩ ⟨1, 0, none⟩) 0)
        oversized_skb
      = (0, []) :=
  ofp_vs_in_malformed_drop sample_consts _ oversized_skb rfl (Or.inl (by decide))

/-- C2: for every packet that passes the length checks and whose IP protocol
has no registered handler, `ofp_vs_in` returns `NF_ACCEPT` and takes no step
at all: no lookup, no scheduling, no change to any connection. -/
theorem ofp_vs_in_no_handler_accept (K : Consts) (env : Env) (skb : rte_mbuf)
    (hwf : well_formed skb)
    (hnone : env.ip_vs_proto_get skb.hdr.protocol = none) :
    ofp_vs_in K env skb = (K.NF_ACCEPT, []) := by
  rw [ofp_vs_in_eq_dispatch K env skb hwf]
  unfold ofp_vs_in_dispatch
  simp only [ip_vs_fill_iphdr, hnone]

/-- Instance of C2: a UDP packet where only a TCP handler is registered. -/
theorem ofp_vs_in_no_handler_accept_witness :
    ofp_vs_in sample_consts
        (sample_env IPPROTO_TCP
          (sample_handler ⟨some (sample_conn 0 1 (some 0)), 0⟩ ⟨1, 0, none⟩) 0)
        (sample_skb IPPROTO_UDP)
      = (1, []) :=
  ofp_vs_in_no_handler_accept sample_consts _ (sample_skb IPPROTO_UDP)
    ⟨rfl, by decide⟩ rfl

/-- C3 (as amended): given that the full-NAT response transmit, the
connection's `packet_xmit` and the verdict written by a `conn_schedule` that
returns 0 are each `NF_ACCEPT` or `NF_DROP`, every value `ofp_vs_in` returns
is `NF_ACCEPT` or `NF_DROP`. In particular a reverse-direction hit on a
connection whose full-NAT flag is clear when `handle_response` tests it yields
`NF_DROP`, and a connection held in the forward direction whose destination
is absent or available and which has no transmit function yields
`NF_ACCEPT`. -/
theorem ofp_vs_in_verdict_accept_or_drop (K : Consts) (env : Env) (skb : rte_mbuf)
    (pp : ip_vs_protocol) (cp : ip_vs_conn)
    (hx : ∀ s c n, is_verdict K (env.ip_vs_fnat_response_xmit s c n))
    (hp : ∀ f s c, is_verdict K (env.packet_xmit f s c))
    (hs : ∀ p h s, env.ip_vs_proto_get p = some h → (h.conn_schedule s).ret = 0 →
      is_verdict K (h.conn_schedule s).v) :
    is_verdict K (ofp_vs_in K env skb).1 ∧
    (well_formed skb → env.ip_vs_proto_get skb.hdr.protocol = some pp →
      reverse_hit K pp skb cp →
      (conn_at_response_xmit K env skb pp cp).flags &&& K.IP_VS_CONN_F_FULLNAT = 0 →
      (ofp_vs_in K env skb).1 = K.NF_DROP) ∧
    (well_formed skb → env.ip_vs_proto_get skb.hdr.protocol = some pp →
      forward_hit K pp skb cp ∨ scheduled_conn pp skb cp →
      dest_unavailable K cp = false →
      (conn_at_forward_xmit K env skb pp cp).packet_xmit = none →
      (ofp_vs_in K env skb).1 = K.NF_ACCEPT) := by
  refine ⟨?_, ?_, ?_⟩
  · unfold ofp_vs_in
    split
    · exact Or.inl rfl
    · split
      · exact Or.inr rfl
      · dsimp only
        split
        · simp only [ip_vs_in_icmp, ne_eq, not_true_eq_false, if_false]
          exact dispatch_verdict K env skb _ hx hp hs
        · exact dispatch_verdict K env skb _ hx hp hs
  · intro hwf hpp hrev hflag
    rw [ofp_vs_in_eq_dispatch K env skb hwf, dispatch_reverse_hit K env skb pp cp hpp hrev]
    unfold conn_at_response_xmit at hflag
    unfold handle_response
    simp only [hflag, ne_eq, not_true_eq_false, if_false]
  · intro hwf hpp hcp hav hnx
    have hfw : (ofp_vs_in_forward K env skb pp cp).1 = K.NF_ACCEPT := by
      unfold conn_at_forward_xmit at hnx
      unfold ofp_vs_in_forward
      simp only [hav, Bool.false_eq_true, if_false, hnx]
    rw [ofp_vs_in_eq_dispatch K env skb hwf]
    rcases hcp with hcp | hcp
    · rw [dispatch_forward_hit K env skb pp cp hpp hcp]
      exact hfw
    · rw [dispatch_scheduled K env skb pp cp hpp hcp]
      exact hfw

/-- Instance of C3: a response packet hitting a full-NAT connection gets a
verdict code; a response packet hitting a connection without the full-NAT
flag is dropped; a client packet hitting a connection with an available
backend and no transmit function is accepted. -/
theorem ofp_vs_in_verdict_accept_or_drop_witness :
    is_verdict sample_consts
      (ofp_vs_in sample_consts
        (sample_env IPPROTO_TCP
          (sample_handler ⟨some (sample_conn 5 1 (some 0)), 2⟩ ⟨1, 0, none⟩) 0)
        (sample_skb IPPROTO_TCP)).1 ∧
    (ofp_vs_in sample_consts
        (sample_env IPPROTO_TCP
          (sample_handler ⟨some (sample_conn 0 1 (some 0)), 2⟩ ⟨1, 0, none⟩) 0)
        (sample_skb IPPROTO_TCP)).1 = 0 ∧
    (ofp_vs_in sample_consts
        (sample_env IPPROTO_TCP
          (sample_handler ⟨some (sample_conn 0 1 none), 0⟩ ⟨1, 0, none⟩) 0)
        (sample_skb IPPROTO_TCP)).1 = 1 :=
  ⟨(ofp_vs_in_verdict_accept_or_drop sample_consts
      (sample_env IPPROTO_TCP
        (sample_handler ⟨some (sample_conn 5 1 (some 0)), 2⟩ ⟨1, 0, none⟩) 0)
      (sample_skb IPPROTO_TCP)
      (sample_handler ⟨some (sample_conn 5 1 (some 0)), 2⟩ ⟨1, 0, none⟩)
      (sample_conn 5 1 (some 0))
      (fun _ _ _ => Or.inl rfl) (fun _ _ _ => Or.inl rfl)
      (fun p h s hreg hret => by
        simp only [sample_env] at hreg
        split at hreg
        · cases hreg
          simp [sample_handler] at hret
        · cases hreg)).1,
   (ofp_vs_in_verdict_accept_or_drop sample_consts
      (sample_env IPPROTO_TCP
        (sample_handler ⟨some (sample_conn 0 1 (some 0)), 2⟩ ⟨1, 0, none⟩) 0)
      (sample_skb IPPROTO_TCP)
      (sample_handler ⟨some (sample_conn 0 1 (some 0)), 2⟩ ⟨1, 0, none⟩)
      (sample_conn 0 1 (some 0))
      (fun _ _ _ => Or.inl rfl) (fun _ _ _ => Or.inl rfl)
      (fun p h s hreg hret => by
        simp only [sample_env] at hreg
        split at hreg
        · cases hreg
          simp [sample_handler] at hret
        · cases hreg)).2.1
      ⟨rfl, by decide⟩ rfl ⟨rfl, rfl⟩ rfl,
   (ofp_vs_in_verdict_accept_or_drop sample_consts
      (sample_env IPPROTO_TCP
        (sample_handler ⟨some (sample_conn 0 1 none), 0⟩ ⟨1, 0, none⟩) 0)
      (sample_skb IPPROTO_TCP)
      (sample_handler ⟨some (sample_conn 0 1 none), 0⟩ ⟨1, 0, none⟩)
      (sample_conn 0 1 none)
      (fun _ _ _ => Or.inl rfl) (fun _ _ _ => Or.inl rfl)
      (fun p h s hreg hret => by
        simp only [sample_env] at hreg
        split at hreg
        · cases hreg
          simp [sample_handler] at hret
        · cases hreg)).2.2
      ⟨rfl, by decide⟩ rfl (Or.inl ⟨rfl, by decide⟩) rfl rfl⟩

/-- C3, the claim as stated fails: a well-formed TCP packet hits, in the
forward direction, a connection that has no transmit function and whose
backend has the availability flag cleared; `ofp_vs_in` returns `NF_DROP`,
not `NF_ACCEPT`. -/
theorem ofp_vs_in_forward_hit_no_xmit_counterexample :
    well_formed (sample_skb IPPROTO_TCP) ∧
    forward_hit sample_consts (sample_handler ⟨some (sample_conn 0 0 none), 0⟩ ⟨1, 0, none⟩)
      (sample_skb IPPROTO_TCP) (sample_conn 0 0 none) ∧
    (sample_conn 0 0 none).packet_xmit = none ∧
    ofp_vs_in sample_consts
        (sample_env IPPROTO_TCP
          (sample_handler ⟨some (sample_conn 0 0 none), 0⟩ ⟨1, 0, none⟩) 0)
        (sample_skb IPPROTO_TCP)
      = (sample_consts.NF_DROP, [Event.conn_in_get, Event.__ip_vs_conn_put]) ∧
    sample_consts.NF_DROP ≠ sample_consts.NF_ACCEPT :=
  ⟨⟨rfl, by decide⟩, ⟨rfl, by decide⟩, rfl, rfl, by decide⟩

/-- C4: whenever `ofp_vs_in` obtains a connection (a lookup hit in either
direction, or a creation by `conn_schedule` that lets processing continue),
its steps contain exactly one release of the reference, and that release is
the last step before it returns: `ip_vs_conn_put` at the end of
`handle_response` on a reverse-direction hit, `__ip_vs_conn_put` on the
unavailable-destination path, `ip_vs_conn_put` after the transmit on the
normal forward path. -/
theorem ofp_vs_in_releases_once (K : Consts) (env : Env) (skb : rte_mbuf)
    (pp : ip_vs_protocol) (cp : ip_vs_conn)
    (hwf : well_formed skb)
    (hpp : env.ip_vs_proto_get skb.hdr.protocol = some pp)
    (hcp : reverse_hit K pp skb cp ∨ forward_hit K pp skb cp ∨ scheduled_conn pp skb cp) :
    (ofp_vs_in K env skb).2.countP is_release = 1 ∧
    (ofp_vs_in K env skb).2.getLast?
      = some (if reverse_hit K pp skb cp then Event.ip_vs_conn_put
              else if dest_unavailable K cp then Event.__ip_vs_conn_put
              else Event.ip_vs_conn_put) := by
  rw [ofp_vs_in_eq_dispatch K env skb hwf]
  rcases hcp with hcp | hcp | hcp
  · rw [dispatch_reverse_hit K env skb pp cp hpp hcp]
    obtain ⟨h1, h2⟩ := response_release K env skb pp cp (ip_vs_fill_iphdr skb.hdr).len
    refine ⟨?_, ?_⟩
    · simpa [is_release] using h1
    · simp only [hcp, if_true]
      rw [List.getLast?_cons, h2]
      rfl
  · have hnr : ¬ reverse_hit K pp skb cp := fun h => hcp.2 h.2
    rw [dispatch_forward_hit K env skb pp cp hpp hcp]
    obtain ⟨h1, h2⟩ := forward_release K env skb pp cp
    refine ⟨?_, ?_⟩
    · simpa [is_release] using h1
    · simp only [hnr, if_false]
      rw [List.getLast?_cons, h2]
      rfl
  · have hnr : ¬ reverse_hit K pp skb cp := fun h =>
      Option.noConfusion (hcp.1.symm.trans h.1)
    rw [dispatch_scheduled K env skb pp cp hpp hcp]
    obtain ⟨h1, h2⟩ := forward_release K env skb pp cp
    refine ⟨?_, ?_⟩
    · simpa [is_release, List.countP_cons] using h1
    · simp only [hnr, if_false]
      rw [List.cons_append, List.cons_append, List.nil_append, List.getLast?_cons,
        List.getLast?_cons, h2]
      rfl

/-- Instance of C4: a client packet hits a connection with an available
backend and a transmit routine. -/
theorem ofp_vs_in_releases_once_witness :
    (ofp_vs_in sample_consts
        (sample_env IPPROTO_TCP
          (sample_handler ⟨some (sample_conn 0 1 (some 0)), 0⟩ ⟨1, 0, none⟩) 0)
        (sample_skb IPPROTO_TCP)).2.countP is_release = 1 :=
  (ofp_vs_in_releases_once sample_consts
    (sample_env IPPROTO_TCP (sample_handler ⟨some (sample_conn 0 1 (some 0)), 0⟩ ⟨1, 0, none⟩) 0)
    (sample_skb IPPROTO_TCP)
    (sample_handler ⟨some (sample_conn 0 1 (some 0)), 0⟩ ⟨1, 0, none⟩)
    (sample_conn 0 1 (some 0))
    ⟨rfl, by decide⟩ rfl (Or.inr (Or.inl ⟨rfl, by decide⟩))).1

/-- C5: when a connection held in the forward direction has a destination
whose availability flag is clear, `ofp_vs_in` returns `NF_DROP`; among its
steps there is no state transition, no transmit, no inbound statistics
update, no `in_pkts` increment and no `ip_vs_conn_put` (the release that
restarts the timer); and `ip_vs_conn_expire_now` is among them if and only if
`sysctl_ip_vs_expire_nodest_conn` is non-zero. -/
theorem ofp_vs_in_unavailable_dest_drop (K : Consts) (env : Env) (skb : rte_mbuf)
    (pp : ip_vs_protocol) (cp : ip_vs_conn) (d : ip_vs_dest)
    (hwf : well_formed skb)
    (hpp : env.ip_vs_proto_get skb.hdr.protocol = some pp)
    (hcp : forward_hit K pp skb cp ∨ scheduled_conn pp skb cp)
    (hd : cp.dest = some d)
    (hflag : d.flags &&& K.IP_VS_DEST_F_AVAILABLE = 0) :
    (ofp_vs_in K env skb).1 = K.NF_DROP ∧
    (∀ dir, Event.state_transition dir ∉ (ofp_vs_in K env skb).2) ∧
    Event.packet_xmit ∉ (ofp_vs_in K env skb).2 ∧
    Event.ip_vs_in_stats ∉ (ofp_vs_in K env skb).2 ∧
    Event.in_pkts_inc ∉ (ofp_vs_in K env skb).2 ∧
    Event.ip_vs_conn_put ∉ (ofp_vs_in K env skb).2 ∧
    (Event.ip_vs_conn_expire_now ∈ (ofp_vs_in K env skb).2
      ↔ env.sysctl_ip_vs_expire_nodest_conn ≠ 0) := by
  have hun : dest_unavailable K cp = true := by
    unfold dest_unavailable
    simp only [hd, hflag, beq_self_eq_true]
  rw [ofp_vs_in_eq_dispatch K env skb hwf]
  rcases hcp with hcp | hcp
  · rw [dispatch_forward_hit K env skb pp cp hpp hcp, forward_unavailable K env skb pp cp hun]
    by_cases hs : env.sysctl_ip_vs_expire_nodest_conn = 0 <;> simp [hs]
  · rw [dispatch_scheduled K env skb pp cp hpp hcp, forward_unavailable K env skb pp cp hun]
    by_cases hs : env.sysctl_ip_vs_expire_nodest_conn = 0 <;> simp [hs]

/-- Instance of C5: the backend of the hit connection is unavailable and
eager expiry is on. -/
theorem ofp_vs_in_unavailable_dest_drop_witness :
    (ofp_vs_in sample_consts
        (sample_env IPPROTO_TCP
          (sample_handler ⟨some (sample_conn 0 0 (some 0)), 0⟩ ⟨1, 0, none⟩) 1)
        (sample_skb IPPROTO_TCP)).1 = 0 ∧
    Event.ip_vs_conn_put ∉
      (ofp_vs_in sample_consts
        (sample_env IPPROTO_TCP
          (sample_handler ⟨some (sample_conn 0 0 (some 0)), 0⟩ ⟨1, 0, none⟩) 1)
        (sample_skb IPPROTO_TCP)).2 :=
  ⟨(ofp_vs_in_unavailable_dest_drop sample_consts
      (sample_env IPPROTO_TCP (sample_handler ⟨some (sample_conn 0 0 (some 0)), 0⟩ ⟨1, 0, none⟩) 1)
      (sample_skb IPPROTO_TCP)
      (sample_handler ⟨some (sample_conn 0 0 (some 0)), 0⟩ ⟨1, 0, none⟩)
      (sample_conn 0 0 (some 0)) (sample_dest 0)
      ⟨rfl, by decide⟩ rfl (Or.inl ⟨rfl, by decide⟩) rfl (by decide)).1,
   (ofp_vs_in_unavailable_dest_drop sample_consts
      (sample_env IPPROTO_TCP (sample_handler ⟨some (sample_conn 0 0 (some 0)), 0⟩ ⟨1, 0, none⟩) 1)
      (sample_skb IPPROTO_TCP)
      (sample_handler ⟨some (sample_conn 0 0 (some 0)), 0⟩ ⟨1, 0, none⟩)
      (sample_conn 0 0 (some 0)) (sample_dest 0)
      ⟨rfl, by decide⟩ rfl (Or.inl ⟨rfl, by decide⟩) rfl (by decide)).2.2.2.2.2.1⟩

/-- C8 (as amended): for every well-formed ICMP packet the relatedness check
reports "not related" and `ofp_vs_in` continues with protocol dispatch, as
for any other protocol; when no handler is registered for ICMP the verdict
is `NF_ACCEPT` and no step is taken (no connection looked up, created or
modified). -/
theorem ofp_vs_in_icmp_not_related (K : Consts) (env : Env) (skb : rte_mbuf)
    (hwf : well_formed skb)
    (hicmp : skb.hdr.protocol = IPPROTO_ICMP) :
    (ip_vs_in_icmp K skb).2 = 0 ∧
    ofp_vs_in K env skb = ofp_vs_in_dispatch K env skb (ip_vs_fill_iphdr skb.hdr) ∧
    (env.ip_vs_proto_get IPPROTO_ICMP = none → ofp_vs_in K env skb = (K.NF_ACCEPT, [])) := by
  refine ⟨rfl, ofp_vs_in_eq_dispatch K env skb hwf, ?_⟩
  intro hnone
  rw [ofp_vs_in_eq_dispatch K env skb hwf]
  unfold ofp_vs_in_dispatch
  simp only [ip_vs_fill_iphdr, hicmp, hnone]

/-- Instance of C8: an ICMP packet where only a TCP handler is registered. -/
theorem ofp_vs_in_icmp_not_related_witness :
    ofp_vs_in sample_consts
        (sample_env IPPROTO_TCP
          (sample_handler ⟨some (sample_conn 0 1 (some 0)), 0⟩ ⟨1, 0, none⟩) 0)
        (sample_skb IPPROTO_ICMP)
      = (1, []) :=
  (ofp_vs_in_icmp_not_related sample_consts
    (sample_env IPPROTO_TCP (sample_handler ⟨some (sample_conn 0 1 (some 0)), 0⟩ ⟨1, 0, none⟩) 0)
    (sample_skb IPPROTO_ICMP) ⟨rfl, by decide⟩ rfl).2.2 rfl

/-- C8, the claim as stated fails: with a handler registered for ICMP, a
well-formed ICMP packet is looked up in the connection table; here the lookup
hits in the reverse direction a connection without the full-NAT flag, and the
verdict is `NF_DROP`, not `NF_ACCEPT`. -/
theorem ofp_vs_in_icmp_handler_counterexample :
    well_formed (sample_skb IPPROTO_ICMP) ∧
    (sample_skb IPPROTO_ICMP).hdr.protocol = IPPROTO_ICMP ∧
    ofp_vs_in sample_consts
        (sample_env IPPROTO_ICMP
          (sample_handler ⟨some (sample_conn 0 1 (some 0)), 2⟩ ⟨1, 0, none⟩) 0)
        (sample_skb IPPROTO_ICMP)
      = (sample_consts.NF_DROP,
          [Event.conn_in_get, Event.ip_vs_out_stats, Event.ip_vs_conn_put]) ∧
    sample_consts.NF_DROP ≠ sample_consts.NF_ACCEPT :=
  ⟨⟨rfl, by decide⟩, rfl, rfl, by decide⟩

/-- C6: for a service without firewall mark and a packet whose destination
port differs from the service's port, `ip_vs_schedule` returns null and makes
no call at all (no scheduler call, no connection creation); and whenever the
service's scheduler returns no destination, `ip_vs_schedule` returns null and
requests no connection creation. -/
theorem ip_vs_schedule_rejects (K : Consts) (senv : SchedEnv) (svc : ip_vs_service)
    (skb : rte_mbuf) (is_synproxy_on : Int) :
    (∀ sport dport, svc.fwmark = 0 → l4_ports skb = some (sport, dport) → dport ≠ svc.port →
      ip_vs_schedule K senv svc skb is_synproxy_on = (none, [])) ∧
    (senv.schedule svc skb = none →
      (ip_vs_schedule K senv svc skb is_synproxy_on).1 = none ∧
      ∀ a, SchedEvent.ip_vs_conn_new a ∉ (ip_vs_schedule K senv svc skb is_synproxy_on).2) := by
  refine ⟨?_, ?_⟩
  · intro sport dport hfw hp hne
    unfold l4_ports at hp
    unfold ip_vs_schedule
    simp only [hp, hfw, hne, ne_eq, not_false_eq_true, and_self, if_true]
  · intro hnone
    unfold ip_vs_schedule
    dsimp only
    split
    · simp
    · split
      · simp
      · simp [hnone]

/-- Instance of C6: a packet for port 8443 offered to the service on port 80,
and a packet for port 80 when the scheduler finds no destination. -/
theorem ip_vs_schedule_rejects_witness :
    ip_vs_schedule sample_consts (sample_senv (some (sample_dest 1))) (sample_svc 0)
        (skb_with_ports IPPROTO_TCP (some (4000, 8443))) 0 = (none, []) ∧
    (ip_vs_schedule sample_consts (sample_senv none) (sample_svc 0)
        (sample_skb IPPROTO_TCP) 0).1 = none :=
  ⟨(ip_vs_schedule_rejects sample_consts (sample_senv (some (sample_dest 1))) (sample_svc 0)
      (skb_with_ports IPPROTO_TCP (some (4000, 8443))) 0).1 4000 8443 rfl rfl (by decide),
   ((ip_vs_schedule_rejects sample_consts (sample_senv none) (sample_svc 0)
      (sample_skb IPPROTO_TCP) 0).2 rfl).1⟩

/-- C7: given that the two verdict codes differ, `ip_vs_leave` returns
`NF_ACCEPT` exactly when the service's port is `FTPPORT` and the packet's
destination port is readable and is not `FTPPORT`; in every other case,
including the one where the port words cannot be read, it returns `NF_DROP`;
and on every path it calls `ip_vs_service_put` exactly once. -/
theorem ip_vs_leave_verdict (K : Consts) (svc : ip_vs_service) (skb : rte_mbuf)
    (hne : K.NF_ACCEPT ≠ K.NF_DROP) :
    ((ip_vs_leave K svc skb).1 = K.NF_ACCEPT ↔
      (svc.port = K.FTPPORT ∧ ∃ p, l4_ports skb = some p ∧ p.2 ≠ K.FTPPORT)) ∧
    ((ip_vs_leave K svc skb).1 ≠ K.NF_ACCEPT → (ip_vs_leave K svc skb).1 = K.NF_DROP) ∧
    (l4_ports skb = none → (ip_vs_leave K svc skb).1 = K.NF_DROP) ∧
    (ip_vs_leave K svc skb).2.count LeaveEvent.ip_vs_service_put = 1 := by
  unfold ip_vs_leave l4_ports
  dsimp only
  cases hp : skb.ports_at (sizeof_ether_hdr + (ip_vs_fill_iphdr skb.hdr).len) with
  | none =>
    refine ⟨?_, ?_, ?_, ?_⟩
    · simp [Ne.symm hne]
    · simp
    · simp
    · simp
  | some p =>
    by_cases hc : svc.port = K.FTPPORT ∧ p.2 ≠ K.FTPPORT
    · refine ⟨?_, ?_, ?_, ?_⟩
      · simp [hc]
      · simp [hc]
      · simp
      · simp [hc]
    · refine ⟨?_, ?_, ?_, ?_⟩
      · simp only [hc, if_false, Option.some.injEq, exists_eq_left']
        constructor
        · intro h
          exact absurd h.symm hne
        · intro h
          exact h.elim
      · simp [hc]
      · simp
      · simp only [hc, if_false]
        decide

/-- Instance of C7: the FTP service receives a packet for port 80 and lets
it pass. -/
theorem ip_vs_leave_verdict_witness :
    (ip_vs_leave sample_consts { af := 2, port := 21, fwmark := 0, flags := 0 }
        (sample_skb IPPROTO_TCP)).1 = 1 ∧
    (ip_vs_leave sample_consts { af := 2, port := 21, fwmark := 0, flags := 0 }
        (sample_skb IPPROTO_TCP)).2.count LeaveEvent.ip_vs_service_put = 1 :=
  ⟨(ip_vs_leave_verdict sample_consts { af := 2, port := 21, fwmark := 0, flags := 0 }
      (sample_skb IPPROTO_TCP) (by decide)).1.mpr ⟨rfl, (4000, 80), rfl, by decide⟩,
   (ip_vs_leave_verdict sample_consts { af := 2, port := 21, fwmark := 0, flags := 0 }
      (sample_skb IPPROTO_TCP) (by decide)).2.2.2⟩

/-- C9: when the packet's destination port equals the service's port (or the
service is firewall-mark-based) and the scheduler returns a destination `D`,
`ip_vs_schedule` calls the scheduler once and then makes exactly one
`ip_vs_conn_new` request, whose arguments are those the specification names
(`claimed_conn_request`); it returns what that request returns; and
`ip_vs_conn_stats` is called, as the last step, if and only if the request
returned a connection. -/
theorem ip_vs_schedule_creates (K : Consts) (senv : SchedEnv) (svc : ip_vs_service)
    (skb : rte_mbuf) (is_synproxy_on : Int) (sport dport : Nat) (D : ip_vs_dest)
    (hp : l4_ports skb = some (sport, dport))
    (hm : dport = svc.port ∨ svc.fwmark ≠ 0)
    (hD : senv.schedule svc skb = some D) :
    ip_vs_schedule K senv svc skb is_synproxy_on
      = (senv.ip_vs_conn_new
            (claimed_conn_request K svc skb sport dport D is_synproxy_on) skb,
          [SchedEvent.schedule,
            SchedEvent.ip_vs_conn_new
              (claimed_conn_request K svc skb sport dport D is_synproxy_on)]
          ++ (if (senv.ip_vs_conn_new
                (claimed_conn_request K svc skb sport dport D is_synproxy_on) skb).isSome
              then [SchedEvent.ip_vs_conn_stats] else [])) := by
  have hguard : ¬ (svc.fwmark = 0 ∧ dport ≠ svc.port) := by
    rintro ⟨h0, hne⟩
    rcases hm with h | h
    · exact hne h
    · exact h h0
  have hargs :
      ({ af := svc.af, protocol := (ip_vs_fill_iphdr skb.hdr).protocol,
         caddr := (ip_vs_fill_iphdr skb.hdr).saddr, cport := sport,
         vaddr := (ip_vs_fill_iphdr skb.hdr).daddr, vport := dport,
         daddr := D.addr, dport := if D.port ≠ 0 then D.port else dport,
         flags := ip_vs_onepacket_enabled K svc (ip_vs_fill_iphdr skb.hdr),
         dest := D, is_synproxy_on := is_synproxy_on } : conn_new_args)
        = claimed_conn_request K svc skb sport dport D is_synproxy_on := by
    unfold claimed_conn_request ip_vs_onepacket_enabled ip_vs_fill_iphdr
    congr 1
    · by_cases h : D.port = 0 <;> simp [h]
    · dsimp only
      split <;> simp
  unfold l4_ports at hp
  unfold ip_vs_schedule
  simp only [hp, hguard, if_false, hD, hargs]
  cases senv.ip_vs_conn_new (claimed_conn_request K svc skb sport dport D is_synproxy_on) skb <;>
    simp

/-- Instance of C9, the example of the specification: service 10.0.0.1:80
over TCP, destination D1 = 10.0.0.11:8080, packet 192.168.1.5:4000 to
10.0.0.1:80; the connection created is (TCP, 192.168.1.5:4000, 10.0.0.1:80,
10.0.0.11:8080). -/
theorem ip_vs_schedule_creates_witness :
    ip_vs_schedule sample_consts (sample_senv (some (sample_dest 1))) (sample_svc 0)
        (sample_skb IPPROTO_TCP) 0
      = (some { protocol := IPPROTO_TCP, caddr := ipv4 192 168 1 5, cport := 4000,
                vaddr := ipv4 10 0 0 1, vport := 80,
                daddr := ipv4 10 0 0 11, dport := 8080,
                flags := 0, dest := some (sample_dest 1), packet_xmit := none,
                state := 0, old_state := 0 },
          [SchedEvent.schedule,
            SchedEvent.ip_vs_conn_new
              { af := 2, protocol := IPPROTO_TCP, caddr := ipv4 192 168 1 5, cport := 4000,
                vaddr := ipv4 10 0 0 1, vport := 80,
                daddr := ipv4 10 0 0 11, dport := 8080,
                flags := 0, dest := sample_dest 1, is_synproxy_on := 0 },
            SchedEvent.ip_vs_conn_stats]) :=
  (ip_vs_schedule_creates sample_consts (sample_senv (some (sample_dest 1))) (sample_svc 0)
    (sample_skb IPPROTO_TCP) 0 4000 80 (sample_dest 1) rfl (Or.inl rfl) rfl).trans rfl

/-- C10, the failing case: the control-plane step succeeds and
`ip_vs_protocol_init` returns -1. `ofp_vs_init` stops after the second step,
as claimed, but the value it returns is 1, which is not negative. -/
theorem ofp_vs_init_protocol_failure :
    ofp_vs_init { ofp_vs_ctl_init := 0, ip_vs_protocol_init := -1,
                  ip_vs_conn_init := 0, ip_vs_rr_init := 0 }
      = (1, [InitStep.ofp_vs_ctl_init, InitStep.ip_vs_protocol_init]) ∧
    ¬ (ofp_vs_init { ofp_vs_ctl_init := 0, ip_vs_protocol_init := -1,
                     ip_vs_conn_init := 0, ip_vs_rr_init := 0 }).1 < 0 := by
  constructor
  · rfl
  · decide

end OfpVs
